import Mathlib

/-!
Verification development for the `clihost` core of Asynkron.LiveView
(`src/clihost.py`): the PTY session manager, the readiness/quiet heuristics,
the keystroke-injection protocol, the keyboard proxy, and the reconnecting
WebSocket feed consumer.

The Python source is shallowly embedded: pure computations become Lean
functions; the event-driven parts become explicit step functions over state
records; OS calls whose outcome the program merely observes (how many bytes
`os.write` accepted, whether `tcsetattr` failed) are driven by explicit
oracle inputs.  Timing is modeled in integer milliseconds.
-/

namespace Clihost

/-! ## Configuration constants (clihost.py lines 36-68) -/

/-- Constant `SUBMIT_DELAY_MS = 60` (line 47). -/
def SUBMIT_DELAY_MS : Nat := 60

/-- Constant `SUBMIT_SEQ` (line 48); `_decode_escapes` maps a backslash-free
string to itself, so the injected submit sequence is a single CR. -/
def SUBMIT_SEQ : String := "\r"

/-- Constant `PREPROMPT_DELAY_MS = 3000` (line 46). -/
def PREPROMPT_DELAY_MS : Nat := 3000

/-- Constant `QUIET_AFTER_READY_MS = 800` (line 42). -/
def QUIET_AFTER_READY_MS : Nat := 800

/-- Constant `QUIET_WAIT_TIMEOUT_MS = 15000` (line 43). -/
def QUIET_WAIT_TIMEOUT_MS : Nat := 15000

/-- Constant `READY_TIMEOUT_MS = 30000` (line 40). -/
def READY_TIMEOUT_MS : Nat := 30000

/-- The scan-buffer cap `self._scanner_limit = 16384` (line 119). -/
def SCANNER_LIMIT : Nat := 16384

/-! ## JSON values

`json.loads` on an inbound text frame yields a Python value; we embed the
possible results.  Numbers are modeled as integers (no claim touches float
frames). -/

inductive JsonVal where
  | jstr (s : String)
  | jnum (n : Int)
  | jbool (b : Bool)
  | jnull
  | obj (fields : List (String × JsonVal))
  | arr (items : List JsonVal)

/-- Python truthiness (`if payload:`): empty string/containers, zero, `False`
and `None` are falsy. -/
def truthy : JsonVal → Bool
  | .jstr s => !s.isEmpty
  | .jnum n => n != 0
  | .jbool b => b
  | .jnull => false
  | .obj fs => !fs.isEmpty
  | .arr xs => !xs.isEmpty

/-- Python `repr` of a decoded JSON value (string-escaping inside `repr` of a
string is elided; no theorem evaluates it on strings needing escapes). -/
def pyReprV : JsonVal → String
  | .jstr s => "'" ++ s ++ "'"
  | .jnum n => toString n
  | .jbool b => if b then "True" else "False"
  | .jnull => "None"
  | .obj fs => "\x7b" ++ pyReprFields fs ++ "\x7d"
  | .arr xs => "[" ++ pyReprItems xs ++ "]"
where
  pyReprFields : List (String × JsonVal) → String
    | [] => ""
    | [(k, v)] => "'" ++ k ++ "': " ++ pyReprV v
    | (k, v) :: rest => "'" ++ k ++ "': " ++ pyReprV v ++ ", " ++ pyReprFields rest
  pyReprItems : List JsonVal → String
    | [] => ""
    | [v] => pyReprV v
    | v :: rest => pyReprV v ++ ", " ++ pyReprItems rest

/-- Python `str()` as used by the f-string `f"lv:{base}"` (line 339):
identity on strings, `repr`-style rendering on everything else. -/
def pyStr : JsonVal → String
  | .jstr s => s
  | v => pyReprV v

/-- Python `dict.get(key)` on a JSON object (`None` ↦ `none`). -/
def dictGet : List (String × JsonVal) → String → Option JsonVal
  | [], _ => none
  | (k, v) :: rest, key => if k == key then some v else dictGet rest key

/-- Comparison in the style of `msg.get("type") == "chat"`: true iff the field is
present and is exactly the given string. -/
def jsonEqStr (v : Option JsonVal) (s : String) : Bool :=
  match v with
  | some (.jstr t) => t == s
  | _ => false

/-! ## base64 decoding (`base64.b64decode`, used at line 350)

Standard-alphabet base64; bytes are `Nat` values < 256. -/

def b64val (c : Char) : Option Nat :=
  if 'A' ≤ c ∧ c ≤ 'Z' then some (c.toNat - 65)
  else if 'a' ≤ c ∧ c ≤ 'z' then some (c.toNat - 97 + 26)
  else if '0' ≤ c ∧ c ≤ '9' then some (c.toNat - 48 + 52)
  else if c = '+' then some 62
  else if c = '/' then some 63
  else none

/-- Decode a run of 6-bit groups into 8-bit bytes, one base64 quantum
(4 chars → 3 bytes, 3 chars → 2 bytes, 2 chars → 1 byte) at a time. -/
def b64quanta : List Nat → List Nat
  | a :: b :: c :: d :: rest =>
      (a * 4 + b / 16) :: ((b % 16) * 16 + c / 4) :: ((c % 4) * 64 + d) :: b64quanta rest
  | [a, b, c] => [a * 4 + b / 16, (b % 16) * 16 + c / 4]
  | [a, b] => [a * 4 + b / 16]
  | _ => []

/-- Model of `base64.b64decode` on a well-formed payload: drop padding, map the
alphabet to 6-bit values, reassemble bytes. -/
def b64decode (s : String) : List Nat :=
  b64quanta ((s.data.filter (fun c => c ≠ '=')).filterMap b64val)

example : b64decode "G1tB" = [27, 91, 65] := by decide

/-! ## PTY actions and the injection protocol -/

/-- One observable effect of the feed consumer on the PTY / event loop. -/
inductive Action where
  | sleepMs (n : Nat)
  | writeText (s : String)
  | writeBytes (bs : List Nat)
deriving DecidableEq, BEq

/-- Model of `try_execute_prompt` (lines 241-246): optional pre-delay, write the text,
sleep `SUBMIT_DELAY_MS`, write the submit sequence. -/
def executePrompt (text : String) (preDelayMs : Nat) : List Action :=
  (if preDelayMs > 0 then [Action.sleepMs preDelayMs] else []) ++
    [Action.writeText text, Action.sleepMs SUBMIT_DELAY_MS, Action.writeText SUBMIT_SEQ]

/-! ## Inbound frames and the message-loop dispatch (lines 329-352) -/

/-- An inbound WebSocket text frame: the raw string together with the result
of `json.loads` on it (`none` models `json.JSONDecodeError`). -/
structure Frame where
  raw : String
  parsed : Option JsonVal

/-- Model of lines 332-335: `msg = json.loads(raw)`, degrading to
`{"type": "chat", "text": str(raw)}` on `JSONDecodeError` (for a text frame
`str(raw)` is `raw` itself). -/
def loadsOrChat (f : Frame) : JsonVal :=
  match f.parsed with
  | some v => v
  | none => .obj [("type", .jstr "chat"), ("text", .jstr f.raw)]

/-- Result of handling one frame inside `async for raw in ws` (lines 337-352). -/
inductive HandleResult where
  | continue_ (acts : List Action)
  | quitReturn
  | raise_
deriving DecidableEq

/-- Dispatch on the decoded message (lines 337-352).

* `msg.get(...)` on a non-`dict` raises `AttributeError` (`raise_`), which
  propagates to the `except Exception` handler of `ws_consumer`;
* chat: inject `"lv:" + base` with zero pre-delay;
* raw: decode `bytes_b64` and write it when truthy, else do nothing (a
  non-string truthy payload would make `base64.b64decode` raise);
* control/quit: `return` out of the consumer;
* any other object: no branch matches — the frame is silently ignored. -/
def dispatch (v : JsonVal) : HandleResult :=
  match v with
  | .obj fields =>
    if jsonEqStr (dictGet fields "type") "chat" then
      let base := match dictGet fields "text" with
        | some t => pyStr t
        | none => ""
      .continue_ (executePrompt ("lv:" ++ base) 0)
    else if jsonEqStr (dictGet fields "type") "raw" then
      let payload := (dictGet fields "bytes_b64").getD (.jstr "")
      if truthy payload then
        match payload with
        | .jstr s => .continue_ [Action.writeBytes (b64decode s)]
        | _ => .raise_
      else .continue_ []
    else if jsonEqStr (dictGet fields "type") "control" && jsonEqStr (dictGet fields "cmd") "quit" then
      .quitReturn
    else .continue_ []
  | _ => .raise_

/-- Handling one raw frame: parse (or degrade to chat), then dispatch. -/
def handleFrame (f : Frame) : HandleResult := dispatch (loadsOrChat f)

example :
    handleFrame { raw := "hello", parsed := none } =
      .continue_ [Action.writeText "lv:hello", Action.sleepMs 60, Action.writeText "\r"] := by
  decide

/-! ## ANSI stripping (`_strip_ansi`, lines 84-88)

Three sequential regex substitutions: OSC (escape-bracket body terminated by
BEL or by escape-backslash), then CSI (escape, opening square bracket,
parameter bytes 0x30-0x3F, intermediate bytes 0x20-0x2F, one final byte
0x40-0x7E), then lone two-character escapes (escape plus 0x40-0x5A/0x5C-0x5F).
Each pass is a left-to-right scan removing non-overlapping matches; a
position where the pattern cannot match is emitted unchanged. -/

/-- Length of the greedy OSC body-plus-terminator starting right after
`ESC ]`: up to and including the first BEL if one exists, else up to and
including the last `ESC \` pair (the greedy `[^BEL]*` backtracks from the
end), else no match. -/
def oscMatchDrop (cs : List Char) : Option Nat :=
  match cs.findIdx? (fun c => c = '\x07') with
  | some i => some (i + 1)
  | none =>
    match lastEscBackslash cs with
    | some j => some (j + 2)
    | none => none
where
  lastEscBackslash : List Char → Option Nat
    | '\x1b' :: '\\' :: rest =>
      match lastEscBackslash ('\\' :: rest) with
      | some j => some (j + 1)
      | none => some 0
    | _ :: rest => (lastEscBackslash rest).map (· + 1)
    | [] => none

/-- First pass: strip OSC sequences. -/
def oscStrip : List Char → List Char
  | '\x1b' :: ']' :: rest =>
    match oscMatchDrop rest with
    | some k => oscStrip (rest.drop k)
    | none => '\x1b' :: ']' :: oscStrip rest
  | c :: rest => c :: oscStrip rest
  | [] => []
termination_by cs => cs.length
decreasing_by
  · simp only [List.length_drop, List.length_cons]; omega
  · simp only [List.length_cons]; omega
  · simp only [List.length_cons]; omega

/-- CSI parameter bytes (0x30-0x3F). -/
def isCsiParam (c : Char) : Bool := '0' ≤ c && c ≤ '?'

/-- CSI intermediate bytes (0x20-0x2F). -/
def isCsiInter (c : Char) : Bool := ' ' ≤ c && c ≤ '/'

/-- CSI final bytes (0x40-0x7E). -/
def isCsiFinal (c : Char) : Bool := '@' ≤ c && c ≤ '~'

/-- Dropping a prefix never lengthens a list: `(l.dropWhile p).length ≤ l.length`. -/
theorem lengthDropWhileLe (p : Char → Bool) (l : List Char) :
    (l.dropWhile p).length ≤ l.length := by
  induction l with
  | nil => simp [List.dropWhile]
  | cons c rest ih =>
    by_cases h : p c
    · simp only [List.dropWhile, h]; exact le_trans ih (Nat.le_succ _)
    · simp [List.dropWhile, h]

/-- Second pass: strip CSI sequences.  The three character classes are
disjoint, so the greedy match is the deterministic scan below. -/
def csiStrip : List Char → List Char
  | '\x1b' :: '[' :: rest =>
    match h2 : (rest.dropWhile isCsiParam).dropWhile isCsiInter with
    | c :: r3 =>
      if isCsiFinal c then csiStrip r3 else '\x1b' :: '[' :: csiStrip rest
    | [] => '\x1b' :: '[' :: csiStrip rest
  | c :: rest => c :: csiStrip rest
  | [] => []
termination_by cs => cs.length
decreasing_by
  · have hle1 : ((rest.dropWhile isCsiParam).dropWhile isCsiInter).length ≤
        (rest.dropWhile isCsiParam).length := lengthDropWhileLe isCsiInter _
    have hle2 : (rest.dropWhile isCsiParam).length ≤ rest.length :=
      lengthDropWhileLe isCsiParam rest
    have : ((rest.dropWhile isCsiParam).dropWhile isCsiInter).length = r3.length + 1 := by
      rw [h2]; simp
    simp only [List.length_cons]; omega
  · simp only [List.length_cons]; omega
  · simp only [List.length_cons]; omega
  · simp only [List.length_cons]; omega

/-- Second bytes of the lone-escape pattern (0x40-0x5A, 0x5C-0x5F). -/
def isEscFinal (c : Char) : Bool := ('@' ≤ c && c ≤ 'Z') || ('\\' ≤ c && c ≤ '_')

/-- Third pass: strip two-character escape sequences. -/
def escStrip : List Char → List Char
  | '\x1b' :: c :: rest =>
    if isEscFinal c then escStrip rest else '\x1b' :: escStrip (c :: rest)
  | c :: rest => c :: escStrip rest
  | [] => []
termination_by cs => cs.length
decreasing_by all_goals simp only [List.length_cons]; omega

/-- Model of `_strip_ansi` (lines 84-88): the three passes in source order. -/
def stripAnsi (s : String) : String :=
  String.mk (escStrip (csiStrip (oscStrip s.data)))


/-! ## Readiness pattern (`READY_REGEX`, line 39)

`(?i)\s*enter\s*@\s*to\s*mention\s*files\s*or\s*/\s*for\s*commands\s*`,
used with `re.search`: under `search`, the leading and trailing `\s*` are
vacuous, so a match exists iff the lower-cased buffer contains the literal
tokens below separated by arbitrary runs of whitespace. -/

/-- Python `\s` on ASCII input. -/
def isPyWs (c : Char) : Bool :=
  c == ' ' || c == '\t' || c == '\n' || c == '\r' || c == '\x0b' || c == '\x0c'

/-- Match a literal token at the head, returning the remainder. -/
def matchLit : List Char → List Char → Option (List Char)
  | [], cs => some cs
  | _ :: _, [] => none
  | l :: ls, c :: cs => if c == l then matchLit ls cs else none

/-- The literal tokens of `READY_REGEX` (lower-cased). -/
def readyTokens : List (List Char) :=
  [['e','n','t','e','r'], ['@'], ['t','o'], ['m','e','n','t','i','o','n'],
   ['f','i','l','e','s'], ['o','r'], ['/'], ['f','o','r'],
   ['c','o','m','m','a','n','d','s']]

/-- Match the token sequence with `\s*` gaps at the head of `cs`. -/
def matchSeq : List (List Char) → List Char → Bool
  | [], _ => true
  | l :: ls, cs =>
    match matchLit l cs with
    | some rest => matchSeq ls (rest.dropWhile isPyWs)
    | none => false

/-- Search in the manner of `re.search`: try every start position. -/
def readySearch : List Char → Bool
  | [] => false
  | c :: cs => matchSeq readyTokens (c :: cs) || readySearch cs

/-- Model of `READY_REGEX.search(buf)` as a Boolean (case-insensitive via `(?i)`). -/
def readyMatches (s : String) : Bool :=
  readySearch (s.data.map Char.toLower)

example : readyMatches "xx Enter @ to mention files or / for commands yy" = true := by decide
example : readyMatches "Enter@to  mention\tfiles or/for commands" = true := by decide
example : readyMatches "enter something else" = false := by decide

/-! ## PTY session state and the reader callback (lines 111-206) -/

/-- The mutable `PTYSession` fields the reader callback touches:
`_scanner_buf`, `_ready_event` and `_last_activity` (a monotonic-clock
reading in ms). -/
structure SessionState where
  scanner_buf : String
  ready : Bool
  last_activity : Nat
deriving DecidableEq

/-- One invocation of `_readable` (lines 145-178) on a chunk that decoded to
`txt`: refresh `_last_activity` to `now`, append the ANSI-stripped text to
the capped scan buffer, and latch the ready event on a fresh pattern match. -/
def readerStep (now : Nat) (txt : String) (s : SessionState) : SessionState :=
  let buf0 := s.scanner_buf ++ stripAnsi txt
  let buf := if buf0.length > SCANNER_LIMIT then
      String.mk (buf0.data.drop (buf0.length - SCANNER_LIMIT))
    else buf0
  let rdy := if !s.ready && readyMatches buf then true else s.ready
  { scanner_buf := buf, ready := rdy, last_activity := now }

/-- Model of `_ready_timeout` firing (lines 195-200): force-latch the ready event. -/
def readyTimeoutStep (s : SessionState) : SessionState :=
  if !s.ready then { s with ready := true } else s

/-- An event that can mutate the session state. -/
inductive SessStep where
  | read (now : Nat) (txt : String)
  | readyTimeout

def stepApply (st : SessStep) (s : SessionState) : SessionState :=
  match st with
  | .read now txt => readerStep now txt s
  | .readyTimeout => readyTimeoutStep s

def applySteps (l : List SessStep) (s : SessionState) : SessionState :=
  l.foldl (fun a st => stepApply st a) s

/-- The sequence of states visited while applying `l` from `s`
(including the initial state). -/
def statesAlong (l : List SessStep) (s : SessionState) : List SessionState :=
  match l with
  | [] => [s]
  | st :: rest => s :: statesAlong rest (stepApply st s)

/-- Number of `false → true` transitions in a Boolean trace. -/
def countFT : List Bool → Nat
  | a :: b :: rest => (if !a && b then 1 else 0) + countFT (b :: rest)
  | _ => 0

/-- Model of `wait_ready` (lines 203-206): it suspends iff the event is not yet set. -/
def wait_ready_blocks (s : SessionState) : Bool := !s.ready

/-! ## The message loop (`async for raw in ws`, lines 329-352)

The loop handles frames strictly serially: each `await` inside the body
completes before the next frame is read.  The body never assigns to any
`PTYSession` field, so the session state threads through unchanged; the
child is assumed alive throughout (`proc.returncode is None`), matching the
scenarios of the claims. -/

inductive LoopExit where
  | finished
  | quit
  | raised
deriving DecidableEq

def runLoop (s : SessionState) : List Frame → SessionState × List Action × LoopExit
  | [] => (s, [], .finished)
  | f :: rest =>
    match handleFrame f with
    | .continue_ acts =>
      match runLoop s rest with
      | (s', as, e) => (s', acts ++ as, e)
    | .quitReturn => (s, [], .quit)
    | .raise_ => (s, [], .raised)

/-! ## The feed consumer (`ws_consumer`, lines 294-363)

One `ConnAttempt` describes the environment's behavior for one iteration of
the `while True` loop: whether `websockets.connect` succeeds, which frames
arrive, and whether the connection ends cleanly (the `async for` just
finishes) or by raising (`ConnectionClosedError` and the like).  The child
is alive for the whole modeled run.  With the source constants
(`EXIT_ON_ERROR = True`, `RECONNECT = True`) reconnection happens exactly
after a clean close, which raises no exception. -/

structure ConnAttempt where
  connectOk : Bool
  frames : List Frame
  cleanClose : Bool

inductive StageEvent where
  | hello
  | startReader
  | wakeKeys
  | waitReady
  | waitQuiet
  | preprompt
  | act (a : Action)
  | errorLogged
  | backoffSleep (secs : Nat)
deriving DecidableEq, BEq

/-- How the consumer coroutine ends. -/
inductive ConsumerExit where
  | quit
  | errorStop
  | attemptsEnd
deriving DecidableEq

/-- The per-connection startup block (lines 302-327): hello frame, start the
PTY reader, send the wake keys (`WAKE_KEYS` is nonempty), `wait_ready()`,
`wait_quiet(800, 15000)`, and — since `DEFAULT_PREPROMPT.strip()` is
nonempty — inject the preprompt.  Nothing here is guarded by the ready
event; only `wait_ready` itself is, and it merely returns faster. -/
def connStages : List StageEvent :=
  [.hello, .startReader, .wakeKeys, .waitReady, .waitQuiet, .preprompt]

/-- Model of `ws_consumer`: iterate over connection attempts.  `s` carries the
session state (its `ready` field is necessarily latched once `wait_ready`
returns, which we record by setting it); `backoff` is the reconnect backoff
in seconds. -/
def wsConsumer (exitOnError reconnect : Bool) (s : SessionState) (backoff : Nat)
    (attempts : List ConnAttempt) : List StageEvent × ConsumerExit :=
  match attempts with
  | [] => ([], .attemptsEnd)
  | a :: rest =>
    if a.connectOk then
      -- line 301: backoff = 1 after a successful connect
      let s1 : SessionState := { s with ready := true }
      match runLoop s1 a.frames with
      | (s2, acts, lexit) =>
        let t0 := connStages ++ acts.map StageEvent.act
        match lexit with
        | .quit => (t0, .quit)
        | .raised =>
          if exitOnError then (t0 ++ [.errorLogged], .errorStop)
          else if !reconnect then (t0 ++ [.errorLogged], .errorStop)
          else
            match wsConsumer exitOnError reconnect s2 (min (1 * 2) 30) rest with
            | (t, e) => (t0 ++ [.errorLogged, .backoffSleep 1] ++ t, e)
        | .finished =>
          if a.cleanClose then
            match wsConsumer exitOnError reconnect s2 1 rest with
            | (t, e) => (t0 ++ t, e)
          else
            if exitOnError then (t0 ++ [.errorLogged], .errorStop)
            else if !reconnect then (t0 ++ [.errorLogged], .errorStop)
            else
              match wsConsumer exitOnError reconnect s2 (min (1 * 2) 30) rest with
              | (t, e) => (t0 ++ [.errorLogged, .backoffSleep 1] ++ t, e)
    else
      if exitOnError then ([.errorLogged], .errorStop)
      else if !reconnect then ([.errorLogged], .errorStop)
      else
        match wsConsumer exitOnError reconnect s (min (backoff * 2) 30) rest with
        | (t, e) => ([.errorLogged, .backoffSleep backoff] ++ t, e)

/-! ## Top-level lifecycle (`main`, lines 378-433)

`main` awaits `asyncio.wait({proc.wait(), stop_event.wait()},
return_when=FIRST_COMPLETED)` — the set contains only child exit and the
stop event; the consumer task is *not* in it, and nothing in `ws_consumer`
sets `stop_event` or touches the child.  The shutdown block (lines 416-433)
runs only once that wait completes. -/

inductive MainPhase where
  | waiting
  | shuttingDown
deriving DecidableEq

/-- Whether the `asyncio.wait` at lines 410-413 has completed. -/
def mainProgress (childExited stopSet : Bool) : MainPhase :=
  if childExited || stopSet then .shuttingDown else .waiting

inductive ShutAct where
  | cancelConsumer
  | stopKeyboard
  | terminateChild
  | killChild
deriving DecidableEq

/-- The shutdown block, lines 416-431: cancel and await the consumer, stop
the keyboard proxy, then — if the child is still alive — `terminate()`,
wait up to 5 s, and `kill()` on timeout (`killNeeded`). -/
def shutdownSequence (childAlive killNeeded : Bool) : List ShutAct :=
  [.cancelConsumer, .stopKeyboard] ++
    (if childAlive then
      [.terminateChild] ++ (if killNeeded then [.killChild] else [])
    else [])

/-- Line 433: `int(proc.returncode or 0)`. -/
def finalExitCode : Option Int → Int
  | none => 0
  | some c => if c = 0 then 0 else c

/-! ## `write_bytes` (lines 225-235)

`os.write` on the non-blocking master either raises `BlockingIOError` or
accepts some number of bytes of the requested chunk; the oracle lists those
outcomes.  The loop retries (with a 5 ms sleep) until all of `data` is
written; if the oracle list runs out first the run is incomplete (`none`).
On success the result is the list of accepted chunks, in write order. -/

inductive OsWrite where
  | wouldBlock
  | wrote (n : Nat)
deriving DecidableEq

def writeBytesLoop (data : List Nat) (total : Nat) :
    List OsWrite → Option (List (List Nat))
  | [] => if total < data.length then none else some []
  | r :: rest =>
    if total < data.length then
      match r with
      | .wouldBlock => writeBytesLoop data total rest
      | .wrote n =>
        let req := (data.drop total).take 4096
        let m := Nat.min n req.length
        match writeBytesLoop data (total + m) rest with
        | some chunks => some (req.take m :: chunks)
        | none => none
    else some []

/-- Model of `write_bytes(data)`, starting from `total = 0`. -/
def write_bytes (data : List Nat) (oracle : List OsWrite) : Option (List (List Nat)) :=
  writeBytesLoop data 0 oracle

/-! ## `wait_quiet` (lines 208-223)

Polls every 50 ms starting at relative time 0; `la t` is the value of
`_last_activity` observed at time `t` (same monotonic clock).  The returned
number is the time at which the coroutine returns. -/

def waitQuietLoop (q deadline : Nat) (la : Nat → Nat) (now : Nat) : Nat :=
  if q ≤ now - la now then now
  else if _h : deadline ≤ now then now
  else waitQuietLoop q deadline la (now + 50)
termination_by deadline - now
decreasing_by omega

/-- Model of `wait_quiet(quiet_ms, timeout_ms)` called at time 0, so the deadline is
`timeout_ms`. -/
def wait_quiet (quiet_ms timeout_ms : Nat) (la : Nat → Nat) : Nat :=
  waitQuietLoop quiet_ms timeout_ms la 0

/-! ## `KeyboardProxy.stop` (lines 267-278) and terminal restore (91-108) -/

/-- The `termios` attributes `_enter_cbreak_noecho` manipulates. -/
structure TermAttrs where
  echo : Bool
  icanon : Bool
  vmin : Nat
  vtime : Nat
deriving DecidableEq

/-- The mode `start()` switches the local terminal into. -/
def enterCbreakNoecho (t : TermAttrs) : TermAttrs :=
  { t with echo := false, icanon := false, vmin := 1, vtime := 0 }

/-- The `restore` closure (lines 103-108): `tcsetattr(orig)` inside
`try/except Exception: pass` — on failure the terminal keeps its current
attributes and no exception escapes. -/
def restoreClosure (orig : TermAttrs) (tcsetFails : Bool) (cur : TermAttrs) : TermAttrs :=
  if tcsetFails then cur else orig

/-- Observable state for `KeyboardProxy.stop`: the proxy's own fields
(`_reader_added`, `_restore`), whether the stdin reader is registered on the
event loop, and the local terminal attributes. -/
structure KBState where
  reader_added : Bool
  restore : Option TermAttrs
  readerRegistered : Bool
  term : TermAttrs
deriving DecidableEq

/-- Model of `stop()` (lines 267-278).  The `try` block deregisters the stdin reader
(`loop.remove_reader` does not raise for an already-removed fd); then, if a
restore closure is present, it runs (swallowing `tcsetattr` failures) and is
cleared.  The `Except` result makes "never raises" a statement rather than a
typing accident: every raising operation in the body sits under a handler. -/
def KeyboardProxy_stop (tcsetFails : Bool) (s : KBState) : Except String KBState :=
  let s1 := if s.reader_added then { s with readerRegistered := false } else s
  match s1.restore with
  | none => .ok s1
  | some orig =>
    .ok { s1 with term := restoreClosure orig tcsetFails s1.term, restore := none }

/-! ## Concrete frames used by the claims -/

/-- A well-formed chat frame `{"type":"chat","text":t}` (the `raw` component
is unused once parsing succeeds). -/
def chatFrame (t : String) : Frame :=
  { raw := t, parsed := some (.obj [("type", .jstr "chat"), ("text", .jstr t)]) }

/-- The control frame `{"cmd":"quit"}` of the quit scenario. -/
def quitFrame : Frame :=
  { raw := "\x7b\"type\":\"control\",\"cmd\":\"quit\"\x7d"
    parsed := some (.obj [("type", .jstr "control"), ("cmd", .jstr "quit")]) }

/-- A syntactically valid JSON object outside the three recognized forms. -/
def fooFrame : Frame :=
  { raw := "\x7b\"type\":\"foo\"\x7d", parsed := some (.obj [("type", .jstr "foo")]) }

/-- A connection attempt that succeeds, carries no frames, and is closed
cleanly by the server (normal close code — the `async for` ends without an
exception, so the `while True` loop reconnects). -/
def cleanConn : ConnAttempt := { connectOk := true, frames := [], cleanClose := true }

/-! # Theorems -/

/-- Handling a chat frame injects `"lv:" ++ t`, sleeps 60 ms, then submits. -/
theorem handle_chatFrame (t : String) :
    handleFrame (chatFrame t) =
      .continue_ [Action.writeText ("lv:" ++ t), Action.sleepMs 60, Action.writeText "\r"] := by
  simp [handleFrame, chatFrame, loadsOrChat, dispatch, dictGet, jsonEqStr, pyStr,
    executePrompt, SUBMIT_DELAY_MS, SUBMIT_SEQ]

/-- Claim C4: processing two chat frames with texts `a` then `b` writes, in
order, the remote-origin marker `"lv:"` plus `a`, then the submit sequence,
then the marker plus `b`, then the submit sequence; the whole first
injection cycle precedes the whole second, with no interleaving and no
pre-delay, and the session state is untouched. -/
theorem sequential_chats_no_interleaving (a b : String) (s : SessionState) :
    runLoop s [chatFrame a, chatFrame b] =
      (s, [Action.writeText ("lv:" ++ a), Action.sleepMs 60, Action.writeText "\r",
           Action.writeText ("lv:" ++ b), Action.sleepMs 60, Action.writeText "\r"],
        .finished) := by
  simp [runLoop, handle_chatFrame]

/-- Claim C8: a raw frame with a non-empty base64 payload results in exactly
one PTY write carrying the decoded bytes — no pre-delay sleep, no submit
sequence, no marker. -/
theorem raw_frame_writes_decoded (s : String) (hne : s ≠ "") :
    dispatch (.obj [("type", .jstr "raw"), ("bytes_b64", .jstr s)]) =
      .continue_ [Action.writeBytes (b64decode s)] := by
  simp [dispatch, dictGet, jsonEqStr, truthy, String.isEmpty_iff, hne]

/-- Witness for C8: the payload `"G1tB"` decodes to the cursor-up sequence
`1B 5B 41` and those three bytes are written verbatim. -/
theorem raw_frame_writes_decoded_witness :
    ("G1tB" : String) ≠ "" ∧
      dispatch (.obj [("type", .jstr "raw"), ("bytes_b64", .jstr "G1tB")]) =
        .continue_ [Action.writeBytes [27, 91, 65]] := by
  refine ⟨by decide, ?_⟩
  rw [raw_frame_writes_decoded "G1tB" (by decide)]
  decide

/-- Claim C10: a raw frame whose `bytes_b64` is absent or empty contributes
no PTY writes and no state change: the message loop's result on
`f :: rest` equals its result on `rest` alone. -/
theorem empty_raw_frame_no_effect (s : SessionState) (rest : List Frame) (f : Frame)
    (fields : List (String × JsonVal))
    (hp : f.parsed = some (.obj fields))
    (ht : dictGet fields "type" = some (.jstr "raw"))
    (hb : dictGet fields "bytes_b64" = none ∨ dictGet fields "bytes_b64" = some (.jstr "")) :
    runLoop s (f :: rest) = runLoop s rest := by
  have hh : handleFrame f = .continue_ [] := by
    rcases hb with hb | hb <;>
      simp [handleFrame, loadsOrChat, hp, dispatch, ht, hb, jsonEqStr, truthy] <;> decide
  rcases hr : runLoop s rest with ⟨s', as, e⟩
  simp [runLoop, hh, hr]

/-- Witness for C10 at a concrete empty-payload raw frame. -/
theorem empty_raw_frame_no_effect_witness :
    runLoop { scanner_buf := "", ready := false, last_activity := 0 }
        [{ raw := "\x7b\"type\":\"raw\",\"bytes_b64\":\"\"\x7d",
           parsed := some (.obj [("type", .jstr "raw"), ("bytes_b64", .jstr "")]) }] =
      runLoop { scanner_buf := "", ready := false, last_activity := 0 } [] :=
  empty_raw_frame_no_effect _ _ _ _ rfl rfl (Or.inr rfl)

/-- Claim C3 counterexample: the valid-JSON frame `{"type":"foo"}` is not
one of the three recognized forms, yet it is *not* treated as a chat frame
whose text is the raw frame — it is silently dropped (zero actions). -/
theorem unrecognized_frame_dropped_not_chat :
    handleFrame fooFrame = .continue_ [] ∧
      dispatch (.obj [("type", .jstr "chat"), ("text", .jstr fooFrame.raw)]) =
        .continue_ [Action.writeText ("lv:" ++ fooFrame.raw), Action.sleepMs 60,
          Action.writeText "\r"] ∧
      handleFrame fooFrame ≠
        dispatch (.obj [("type", .jstr "chat"), ("text", .jstr fooFrame.raw)]) := by
  decide

/-- Claim C3 (amended): frames that fail to parse as JSON are treated
exactly as chat frames whose text is the raw frame (injected, never
dropped); however a frame parsing to a JSON object outside the three
recognized forms is silently ignored, and one parsing to a non-object (for
example a JSON string) raises and aborts the loop via the error path. -/
theorem parse_failure_degrades_to_chat (f : Frame) :
    (f.parsed = none →
      handleFrame f = .continue_ [Action.writeText ("lv:" ++ f.raw), Action.sleepMs 60,
        Action.writeText "\r"]) ∧
    (∀ fields, jsonEqStr (dictGet fields "type") "chat" = false →
      jsonEqStr (dictGet fields "type") "raw" = false →
      (jsonEqStr (dictGet fields "type") "control" &&
        jsonEqStr (dictGet fields "cmd") "quit") = false →
      dispatch (.obj fields) = .continue_ []) ∧
    (∀ s0 : String, dispatch (.jstr s0) = .raise_) := by
  refine ⟨fun h => ?_, fun fields h1 h2 h3 => ?_, fun s0 => rfl⟩
  · simp [handleFrame, loadsOrChat, h, dispatch, dictGet, jsonEqStr, pyStr,
      executePrompt, SUBMIT_DELAY_MS, SUBMIT_SEQ]
  · simp [dispatch, h1, h2, h3]

/-- Witness for C3 (amended) at a concrete unparsable frame. -/
theorem parse_failure_degrades_to_chat_witness :
    handleFrame { raw := "not json", parsed := none } =
      .continue_ [Action.writeText "lv:not json", Action.sleepMs 60, Action.writeText "\r"] :=
  (parse_failure_degrades_to_chat { raw := "not json", parsed := none }).1 rfl

/-- Claim C9: `KeyboardProxy.stop` never raises (every raising operation in
its body is under a handler, so it always returns a state), and it is
idempotent: a second call — whatever the `tcsetattr` oracle says either
time — returns the post-first-call state unchanged. -/
theorem keyboard_stop_idempotent (f g : Bool) (s : KBState) :
    (∃ s', KeyboardProxy_stop f s = .ok s') ∧
    (∀ s₁, KeyboardProxy_stop f s = .ok s₁ → KeyboardProxy_stop g s₁ = .ok s₁) := by
  obtain ⟨ra, ro, rr, tm⟩ := s
  constructor
  · cases ro <;> by_cases hra : ra <;>
      simp [KeyboardProxy_stop, hra]
  · intro s₁ h
    cases ro <;> by_cases hra : ra <;>
      simp [KeyboardProxy_stop, hra, restoreClosure] at h ⊢ <;>
      simp [← h, KeyboardProxy_stop, hra]

/-- Witness for C9: stopping twice from a fully-armed proxy state, with the
restore failing the first time, is a fixed point after the first call. -/
theorem keyboard_stop_idempotent_witness :
    KeyboardProxy_stop false
        { reader_added := true, restore := none, readerRegistered := false,
          term := { echo := false, icanon := false, vmin := 1, vtime := 0 } } =
      .ok { reader_added := true, restore := none, readerRegistered := false,
            term := { echo := false, icanon := false, vmin := 1, vtime := 0 } } :=
  (keyboard_stop_idempotent true false
      { reader_added := true, restore := some { echo := true, icanon := true, vmin := 0, vtime := 1 },
        readerRegistered := true,
        term := { echo := false, icanon := false, vmin := 1, vtime := 0 } }).2
    _ rfl

/-- Any session step preserves a latched ready signal: neither the reader
callback nor the timeout task ever clears `_ready_event`. -/
theorem step_ready_mono (st : SessStep) (s : SessionState) (h : s.ready = true) :
    (stepApply st s).ready = true := by
  cases st <;> simp [stepApply, readerStep, readyTimeoutStep, h]

/-- Monotonicity over any sequence of steps. -/
theorem applySteps_ready_mono (l : List SessStep) :
    ∀ s : SessionState, s.ready = true → (applySteps l s).ready = true := by
  induction l with
  | nil => intro s h; simpa [applySteps] using h
  | cons st rest ih =>
    intro s h
    have : applySteps (st :: rest) s = applySteps rest (stepApply st s) := rfl
    rw [this]
    exact ih _ (step_ready_mono st s h)

theorem statesAlong_shape (l : List SessStep) (s : SessionState) :
    ∃ t, statesAlong l s = s :: t := by
  cases l <;> exact ⟨_, rfl⟩

/-- Once ready is latched, the remaining trace contains no transition at
all: `countFT` of an all-true tail is zero. -/
theorem countFT_allTrue (l : List SessStep) :
    ∀ s : SessionState, s.ready = true →
      countFT ((statesAlong l s).map SessionState.ready) = 0 := by
  induction l with
  | nil => intro s h; simp [statesAlong, countFT]
  | cons st rest ih =>
    intro s h
    have h' := step_ready_mono st s h
    obtain ⟨t, htl⟩ := statesAlong_shape rest (stepApply st s)
    have hrec := ih (stepApply st s) h'
    rw [htl, List.map_cons, h'] at hrec
    simp [statesAlong, htl, countFT, h, h', hrec]

theorem countFT_le_one (l : List SessStep) :
    ∀ s : SessionState, countFT ((statesAlong l s).map SessionState.ready) ≤ 1 := by
  induction l with
  | nil => intro s; simp [statesAlong, countFT]
  | cons st rest ih =>
    intro s
    obtain ⟨t, htl⟩ := statesAlong_shape rest (stepApply st s)
    cases hs : s.ready with
    | true => simp [countFT_allTrue (st :: rest) s hs]
    | false =>
      cases hs' : (stepApply st s).ready with
      | true =>
        have hz := countFT_allTrue rest (stepApply st s) hs'
        rw [htl, List.map_cons, hs'] at hz
        simp [statesAlong, htl, countFT, hs, hs', hz]
      | false =>
        have hle := ih (stepApply st s)
        rw [htl, List.map_cons, hs'] at hle
        simp only [statesAlong, htl, List.map_cons, countFT, hs, hs']
        simpa using hle

/-- Claim C5: the ready signal is monotone (every step preserves `true`),
flips `false → true` at most once along any trace of reader/timeout events,
and once it is latched every later `wait_ready` call finds the event set
and does not suspend. -/
theorem ready_latch_monotone (l : List SessStep) (s : SessionState) :
    (s.ready = true → (applySteps l s).ready = true) ∧
    countFT ((statesAlong l s).map SessionState.ready) ≤ 1 ∧
    ((applySteps l s).ready = true →
      ∀ more, wait_ready_blocks (applySteps more (applySteps l s)) = false) := by
  refine ⟨applySteps_ready_mono l s, countFT_le_one l s, fun h more => ?_⟩
  simp [wait_ready_blocks, applySteps_ready_mono more _ h]

/-- Witness for C5: from a latched state, applying a timeout step keeps the
signal latched. -/
theorem ready_latch_monotone_witness :
    ({ scanner_buf := "", ready := true, last_activity := 0 } : SessionState).ready = true ∧
      (applySteps [SessStep.readyTimeout]
        { scanner_buf := "", ready := true, last_activity := 0 }).ready = true :=
  ⟨rfl, (ready_latch_monotone [SessStep.readyTimeout]
      { scanner_buf := "", ready := true, last_activity := 0 }).1 rfl⟩

/-- Content and order of a completed `write_bytes` run: the accepted chunks
concatenate to `data.drop total`, each at most 4096 bytes. -/
theorem writeBytesLoop_spec (data : List Nat) :
    ∀ (oracle : List OsWrite) (total : Nat) (chunks : List (List Nat)),
      writeBytesLoop data total oracle = some chunks →
      chunks.flatten = data.drop total ∧ ∀ c ∈ chunks, c.length ≤ 4096 := by
  intro oracle
  induction oracle with
  | nil =>
    intro total chunks h
    by_cases hlt : total < data.length
    · simp [writeBytesLoop, hlt] at h
    · simp [writeBytesLoop, hlt] at h
      subst h
      simp [List.drop_eq_nil_of_le (by omega : data.length ≤ total)]
  | cons r rest ih =>
    intro total chunks h
    by_cases hlt : total < data.length
    · cases r with
      | wouldBlock =>
        simp only [writeBytesLoop, if_pos hlt] at h
        exact ih total chunks h
      | wrote n =>
        simp only [writeBytesLoop, if_pos hlt] at h
        rcases hrec : writeBytesLoop data (total + Nat.min n ((data.drop total).take 4096).length)
            rest with _ | chunks'
        · rw [hrec] at h; simp at h
        · rw [hrec] at h
          simp only [Option.some.injEq] at h
          subst h
          obtain ⟨hjoin, hbnd⟩ := ih _ chunks' hrec
          have hreqlen : ((data.drop total).take 4096).length = min 4096 (data.length - total) := by
            simp
          have hmle : Nat.min n ((data.drop total).take 4096).length ≤ 4096 :=
            le_trans (Nat.min_le_right n _) (by omega)
          constructor
          · rw [List.flatten_cons, hjoin]
            have h1 : ((data.drop total).take 4096).take
                  (Nat.min n ((data.drop total).take 4096).length) =
                (data.drop total).take (Nat.min n ((data.drop total).take 4096).length) := by
              rw [List.take_take]
              congr 1
              omega
            rw [h1]
            have h2 : List.drop (total + Nat.min n ((data.drop total).take 4096).length) data =
                (data.drop total).drop (Nat.min n ((data.drop total).take 4096).length) := by
              rw [List.drop_drop]
            rw [h2, List.take_append_drop]
          · intro c hc
            rcases List.mem_cons.mp hc with hc | hc
            · subst hc
              have := List.length_take_le (Nat.min n ((data.drop total).take 4096).length)
                ((data.drop total).take 4096)
              omega
            · exact hbnd c hc
    · simp only [writeBytesLoop, if_neg hlt] at h
      simp only [Option.some.injEq] at h
      subst h
      simp [List.drop_eq_nil_of_le (by omega : data.length ≤ total)]

/-- An oracle that accepts 4096 bytes per call completes the run. -/
theorem writeBytesLoop_progress :
    ∀ (k : Nat) (data : List Nat) (total : Nat),
      data.length ≤ total + 4096 * k →
      (writeBytesLoop data total (List.replicate k (OsWrite.wrote 4096))).isSome := by
  intro k
  induction k with
  | zero =>
    intro data total h
    simp only [List.replicate, writeBytesLoop]
    have : ¬ total < data.length := by omega
    simp [this]
  | succ k ih =>
    intro data total h
    rw [List.replicate_succ]
    by_cases hlt : total < data.length
    · simp only [writeBytesLoop, if_pos hlt]
      have hreqlen : ((data.drop total).take 4096).length = min 4096 (data.length - total) := by
        simp
      have hmin : Nat.min 4096 ((data.drop total).take 4096).length =
          min 4096 ((data.drop total).take 4096).length := rfl
      have hrec := ih data (total + Nat.min 4096 ((data.drop total).take 4096).length)
        (by rw [hmin]; omega)
      rcases hres : writeBytesLoop data (total + Nat.min 4096 ((data.drop total).take 4096).length)
          (List.replicate k (OsWrite.wrote 4096)) with _ | cs
      · rw [hres] at hrec; simp at hrec
      · simp
    · simp [writeBytesLoop, hlt]

/-- Claim C6: whenever `write_bytes(data)` completes, the chunks it pushed
through `os.write` reassemble exactly to `data` (in order, unmodified),
every chunk is at most 4096 bytes, and an oracle that keeps accepting bytes
makes it complete; would-block outcomes are retried, never raised. -/
theorem write_bytes_exact :
    (∀ (data : List Nat) (oracle : List OsWrite) (chunks : List (List Nat)),
      write_bytes data oracle = some chunks →
      chunks.flatten = data ∧ ∀ c ∈ chunks, c.length ≤ 4096) ∧
    (∀ data : List Nat,
      (write_bytes data
        (List.replicate (data.length / 4096 + 1) (OsWrite.wrote 4096))).isSome) := by
  constructor
  · intro data oracle chunks h
    have := writeBytesLoop_spec data oracle 0 chunks h
    simpa using this
  · intro data
    apply writeBytesLoop_progress
    have h1 := Nat.div_add_mod data.length 4096
    have h2 : data.length % 4096 < 4096 := Nat.mod_lt _ (by omega)
    omega

/-- Witness for C6: a three-byte write against an accepting oracle
completes in one chunk which reassembles to the input. -/
theorem write_bytes_exact_witness :
    write_bytes [1, 2, 3] [OsWrite.wrote 4096] = some [[1, 2, 3]] ∧
      ([[1, 2, 3]] : List (List Nat)).flatten = [1, 2, 3] :=
  ⟨by decide,
    (write_bytes_exact.1 [1, 2, 3] [OsWrite.wrote 4096] [[1, 2, 3]] (by decide)).1⟩

/-- Upper bound for the quiet poll: starting at most one poll interval
before the deadline, the loop returns strictly before `deadline + 50`. -/
theorem waitQuietLoop_upper (q : Nat) (la : Nat → Nat) (dl : Nat) :
    ∀ (m now : Nat), dl - now ≤ m → now ≤ dl + 49 →
      waitQuietLoop q dl la now < dl + 50 := by
  intro m
  induction m with
  | zero =>
    intro now h1 h2
    unfold waitQuietLoop
    split_ifs with hq hd
    · omega
    · omega
    · omega
  | succ m ih =>
    intro now h1 h2
    unfold waitQuietLoop
    split_ifs with hq hd
    · omega
    · omega
    · exact ih (now + 50) (by omega) (by omega)

/-- The loop only returns for one of the two documented reasons: the quiet
window was reached, or the deadline passed. -/
theorem waitQuietLoop_reason (q : Nat) (la : Nat → Nat) (dl : Nat) :
    ∀ (m now : Nat), dl - now ≤ m →
      q ≤ waitQuietLoop q dl la now - la (waitQuietLoop q dl la now) ∨
        dl ≤ waitQuietLoop q dl la now := by
  intro m
  induction m with
  | zero =>
    intro now h1
    unfold waitQuietLoop
    split_ifs with hq hd
    · exact Or.inl hq
    · exact Or.inr hd
    · omega
  | succ m ih =>
    intro now h1
    unfold waitQuietLoop
    split_ifs with hq hd
    · exact Or.inl hq
    · exact Or.inr hd
    · exact ih (now + 50) (by omega)

/-- With no output activity at all the effective deadline is
`min quiet_ms deadline`. -/
theorem waitQuietLoop_noactivity_upper (q : Nat) (dl : Nat) :
    ∀ (m now : Nat), min q dl - now ≤ m → now ≤ min q dl + 49 →
      waitQuietLoop q dl (fun _ => 0) now < min q dl + 50 := by
  intro m
  induction m with
  | zero =>
    intro now h1 h2
    unfold waitQuietLoop
    split_ifs with hq hd
    · omega
    · omega
    · simp only [Nat.sub_zero] at hq; omega
  | succ m ih =>
    intro now h1 h2
    unfold waitQuietLoop
    split_ifs with hq hd
    · omega
    · omega
    · simp only [Nat.sub_zero] at hq
      exact ih (now + 50) (by omega) (by omega)

/-- Claim C7: `wait_quiet(q, t)` returns within `t` up to one 50 ms poll
interval; it returns only because the quiet window was reached or the
deadline passed, whichever came first; and with no activity at all it
returns at the first poll at or after `min q t`. -/
theorem wait_quiet_bounds (q t : Nat) (la : Nat → Nat) :
    wait_quiet q t la < t + 50 ∧
    (q ≤ wait_quiet q t la - la (wait_quiet q t la) ∨ t ≤ wait_quiet q t la) ∧
    ((∀ n, la n = 0) →
      min q t ≤ wait_quiet q t la ∧ wait_quiet q t la < min q t + 50) := by
  refine ⟨waitQuietLoop_upper q la t t 0 (by omega) (by omega),
    waitQuietLoop_reason q la t t 0 (by omega), fun hz => ?_⟩
  have hla : la = fun _ => 0 := funext hz
  subst hla
  constructor
  · rcases waitQuietLoop_reason q (fun _ => 0) t t 0 (by omega) with h | h
    · simp only [Nat.sub_zero] at h
      simp only [wait_quiet]
      omega
    · simp only [wait_quiet]
      omega
  · simp only [wait_quiet]
    exact waitQuietLoop_noactivity_upper q t (min q t) 0 (by omega) (by omega)

/-- Witness for C7: with quiet window 100 ms, timeout 1000 ms, and no
activity, the return time is about `min 100 1000`. -/
theorem wait_quiet_bounds_witness :
    min 100 1000 ≤ wait_quiet 100 1000 (fun _ => 0) ∧
      wait_quiet 100 1000 (fun _ => 0) < min 100 1000 + 50 :=
  (wait_quiet_bounds 100 1000 (fun _ => 0)).2.2 (fun _ => rfl)

/-- Claim C2 counterexample: with the source constants, a clean server
close reconnects, and the second successful connection — entered with the
ready signal already latched by the first — re-runs the whole startup
block: the preprompt is injected twice over two connections, and a single
connection entered with `ready = true` still produces the full stage list
including the quiet-wait and the preprompt. -/
theorem reconnect_reruns_quiet_and_preprompt :
    ((wsConsumer true true { scanner_buf := "", ready := false, last_activity := 0 } 1
        [cleanConn, cleanConn]).1.count StageEvent.preprompt = 2) ∧
    ((wsConsumer true true { scanner_buf := "", ready := true, last_activity := 0 } 1
        [cleanConn]).1 = connStages) ∧
    StageEvent.waitQuiet ∈ connStages ∧ StageEvent.preprompt ∈ connStages := by
  refine ⟨by decide, by decide, ?_, ?_⟩ <;> simp [connStages]

/-- Claim C2 (amended): only the ready-wait is gated by the process-global
ready signal (a reconnect's `wait_ready` returns immediately); the
quiet-wait and the preprompt injection are not gated and re-run on every
successful connection, first or not. -/
theorem every_connection_runs_startup_stages (eoe rec : Bool) (s : SessionState)
    (backoff : Nat) (a : ConnAttempt) (rest : List ConnAttempt)
    (hok : a.connectOk = true) :
    ∃ t, (wsConsumer eoe rec s backoff (a :: rest)).1 =
      [StageEvent.hello, StageEvent.startReader, StageEvent.wakeKeys, StageEvent.waitReady,
        StageEvent.waitQuiet, StageEvent.preprompt] ++ t := by
  unfold wsConsumer
  rw [if_pos hok]
  rcases hr : runLoop { s with ready := true } a.frames with ⟨s2, acts, lexit⟩
  simp only [hr]
  cases lexit with
  | quit => exact ⟨_, by simp [connStages] <;> rfl⟩
  | raised => cases eoe <;> cases rec <;> exact ⟨_, by simp [connStages] <;> rfl⟩
  | finished =>
    cases eoe <;> cases rec <;> cases hcc : a.cleanClose <;>
      exact ⟨_, by simp [connStages, hcc] <;> rfl⟩

/-- Witness for C2 (amended): a connection entered with the ready signal
already latched still replays the whole startup block. -/
theorem every_connection_runs_startup_stages_witness :
    ∃ t, (wsConsumer true true { scanner_buf := "", ready := true, last_activity := 0 } 1
        [cleanConn]).1 =
      [StageEvent.hello, StageEvent.startReader, StageEvent.wakeKeys, StageEvent.waitReady,
        StageEvent.waitQuiet, StageEvent.preprompt] ++ t :=
  every_connection_runs_startup_stages true true
    { scanner_buf := "", ready := true, last_activity := 0 } 1 cleanConn [] rfl

/-- Claim C1 counterexample: a quit control frame makes the consumer reach
its terminal state while the child is alive (`childExited = false`) and no
stop signal was delivered (`stopSet = false`) — and `main`'s wait, which
watches only child exit and the stop event, stays in `waiting`: the
shutdown block that would send terminate/kill is not reached. -/
theorem quit_does_not_trigger_shutdown :
    (wsConsumer true true { scanner_buf := "", ready := false, last_activity := 0 } 1
        [{ connectOk := true, frames := [quitFrame], cleanClose := true }]).2 =
      ConsumerExit.quit ∧
    mainProgress false false = MainPhase.waiting ∧
    mainProgress false false ≠ MainPhase.shuttingDown := by
  decide

/-- Claim C1 (amended): shutdown is triggered by child exit or by a stop
signal — not by the consumer reaching a terminal state; when it does run
with the child alive, the child is terminated and, if still alive after the
5 s grace, killed.  On a failed connect with exit-on-error the consumer
logs the error and stops before any startup stage (no ready-wait), but by
itself that only ends the consumer task. -/
theorem shutdown_trigger_and_child_kill (c st alive k : Bool) :
    (mainProgress c st = MainPhase.shuttingDown ↔ (c = true ∨ st = true)) ∧
    (alive = true → ShutAct.terminateChild ∈ shutdownSequence alive k) ∧
    (alive = true → k = true → ShutAct.killChild ∈ shutdownSequence alive k) ∧
    (∀ (rec : Bool) (s : SessionState) (b : Nat) (fs : List Frame) (cc : Bool)
        (rest : List ConnAttempt),
      wsConsumer true rec s b
          ({ connectOk := false, frames := fs, cleanClose := cc } :: rest) =
        ([StageEvent.errorLogged], ConsumerExit.errorStop)) := by
  refine ⟨?_, ?_, ?_, ?_⟩
  · cases c <;> cases st <;> simp [mainProgress]
  · intro h; subst h; cases k <;> simp [shutdownSequence]
  · intro h hk; subst h; subst hk; simp [shutdownSequence]
  · intro rec s b fs cc rest
    simp [wsConsumer]

/-- Witness for C1 (amended): with the child alive and a kill needed, the
shutdown block both terminates and kills. -/
theorem shutdown_trigger_and_child_kill_witness :
    ShutAct.terminateChild ∈ shutdownSequence true true ∧
      ShutAct.killChild ∈ shutdownSequence true true :=
  ⟨(shutdown_trigger_and_child_kill true false true true).2.1 rfl,
    (shutdown_trigger_and_child_kill true false true true).2.2.1 rfl rfl⟩

end Clihost
